import Mathlib

/-!
Verification development for the histocartography repository.

We shallowly embed the parts of the code base that the properties below are
about:

* `experiments/histo-seg/preprocess.py` — the `preprocessing` function and the
  `__main__` entry point (configuration validation, metadata loading and
  merging, target-path injection, output linking, config serialization).
* `histocartography/dataloader/consep_dataset.py` — `ConsepDataset.__getitem__`,
  `ConsepDataset.__len__` and `collate`.
* `histocartography/ml/models/tissue_graph_model.py` — the pretrained-checkpoint
  lookup `_get_checkpoint_id` and the constructor's error path.

Python dicts read from YAML are embedded as structures with `Option` fields for
keys that may be absent; Python exceptions (`AssertionError`, `KeyError`,
`IndexError`, `AttributeError`, `NotImplementedError`) become constructors of
explicit error types carried in `Except`.
-/

namespace Histocartography

/-! ## Data model for `experiments/histo-seg/preprocess.py` -/

/-- A row of the pickled image table (`IMAGES_DF`): the pandas index (`name`)
and the image `path` column.  Other columns are irrelevant to the properties
checked here. -/
structure ImageRow where
  name : String
  path : String
  deriving DecidableEq, Repr

/-- A row of a pickled annotation table (`ANNOTATIONS_DF` or one of the
partial-annotation tables): the pandas index (`name`) and the annotation
payload for that image, kept opaque as a string. -/
structure AnnRow where
  name : String
  annPath : String
  deriving DecidableEq, Repr

/-- A row of the working metadata table handed to the pipeline runner: the
image row, optionally joined with its annotation record. -/
structure MergedRow where
  name : String
  path : String
  annData : Option String
  deriving DecidableEq, Repr

/-- Modelled from the spec: `merge_metadata` (from `experiments/histo-seg/utils.py`,
which is not among the provided sources) joins the image table with the
annotation table: "Merged metadata table: image record joined with its
annotation record by identifier; one row per image." -/
def merge_metadata (images : List ImageRow) (anns : List AnnRow) : List MergedRow :=
  images.filterMap fun r =>
    (anns.find? fun a => a.name == r.name).map fun a =>
      { name := r.name, path := r.path, annData := some a.annPath }

/-- The image table viewed as a working table with no annotation data joined,
as passed to the runner when `labels` is false. -/
def plainTable (images : List ImageRow) : List MergedRow :=
  images.map fun r => { name := r.name, path := r.path, annData := none }

/-- The `params` dict of the stain-normalization stage descriptor
(`config["stages"][1]["stain_normalizers"]["params"]`).  `target` is the
configured reference identifier (may be absent), `target_path` is the injected
path (absent until `preprocessing` writes it). -/
structure SNParams where
  target : Option String
  target_path : Option String
  deriving DecidableEq, Repr

/-- One stage descriptor of the pipeline configuration.  `stain_normalizers`
is `some p` when the descriptor has the key chain
`["stain_normalizers"]["params"]` with params `p`, and `none` otherwise. -/
structure Stage where
  stageName : String
  stain_normalizers : Option SNParams
  deriving DecidableEq, Repr

/-- The pipeline configuration (`config["pipeline"]` in the YAML): an ordered
list of stage descriptors. -/
structure Config where
  stages : List Stage
  deriving DecidableEq, Repr

/-- Python exceptions raised inside `preprocessing`. -/
inductive PError where
  /-- The `assert partial_annotation in PARTIAL_ANNOTATIONS_DFS` assertion. -/
  | assertPartAnnUnsupported : PError
  /-- A dict/loc key lookup failure. -/
  | keyError : PError
  /-- A positional indexing failure (e.g. `iloc` on an empty table,
  `stages[1]` on a short stage list). -/
  | indexError : PError
  deriving DecidableEq, Repr

/-- `config["stages"][1]["stain_normalizers"]["params"]`, as read access. -/
def Config.snParams? (c : Config) : Option SNParams :=
  (c.stages[1]?).bind Stage.stain_normalizers

/-- `config["stages"][1]["stain_normalizers"]["params"]["target_path"]`, as
read access. -/
def Config.targetPath? (c : Config) : Option String :=
  (c.snParams?).bind SNParams.target_path

/-- `config["stages"][1]["stain_normalizers"]["params"]["target_path"] = p`:
mutation of the stain-normalization stage descriptor, failing exactly where
Python raises (`IndexError` when there is no second stage, `KeyError` when the
key chain is missing). -/
def Config.setTargetPath (c : Config) (p : String) : Except PError Config :=
  match c.stages[1]? with
  | none => .error .indexError
  | some st =>
    match st.stain_normalizers with
    | none => .error .keyError
    | some sn =>
      .ok ⟨c.stages.set 1 { st with stain_normalizers := some { sn with target_path := some p } }⟩

/-- The dataset module resolved by `dynamic_import_from(dataset, ...)` together
with the filesystem facts `preprocessing` consults.  The `*_DF` fields hold the
contents of the pickled tables those constants point at. -/
structure Env where
  PREPROCESS_PATH : String
  preprocessPathExists : Bool
  outputsPathExists : Bool
  IMAGES_DF : List ImageRow
  ANNOTATIONS_DF : List AnnRow
  PARTIAL_ANNOTATIONS_DFS : List (Int × List AnnRow)
  deriving Repr

/-- The annotation table selected by the `labels` branch of `preprocessing`:
the full table when ` partAnn` is `none`, otherwise the partial table for that
key, guarded by the `assert partial_annotation in PARTIAL_ANNOTATIONS_DFS`
assertion. -/
def readAnnTable (env : Env) (partAnn : Option Int) : Except PError (List AnnRow) :=
  match partAnn with
  | none => .ok env.ANNOTATIONS_DF
  | some k =>
    match env.PARTIAL_ANNOTATIONS_DFS.lookup k with
    | none => .error .assertPartAnnUnsupported
    | some df => .ok df

/-- Lines 25–35 of `preprocess.py`: read `IMAGES_DF`; when `labels` holds, also
read the (full or partial) annotation table and merge.  Returns the working
table together with whether an annotation table was read. -/
def loadMetadata (env : Env) (labels : Bool) (partAnn : Option Int) :
    Except PError (List MergedRow × Bool) :=
  if labels then
    (readAnnTable env partAnn).map fun ann =>
      (merge_metadata env.IMAGES_DF ann, true)
  else
    .ok (plainTable env.IMAGES_DF, false)

/-- The observable outcome of a successful `preprocessing` call. -/
structure PreprocessResult where
  /-- Whether an annotation table was read (`pd.read_pickle` on
  `ANNOTATIONS_DF` or a partial table). -/
  readAnnotated : Bool
  /-- The metadata table passed to `pipeline.run`. -/
  finalMetadata : List MergedRow
  /-- The `cores` value passed to `pipeline.run`. -/
  finalCores : Nat
  /-- The configuration at the time `BatchPipelineRunner` is constructed
  (after target-path injection). -/
  runnerConfig : Config
  /-- Whether `PREPROCESS_PATH.mkdir()` was called. -/
  madePreprocessDir : Bool
  /-- Whether `OUTPUTS_PATH.mkdir()` was called. -/
  madeOutputsDir : Bool
  /-- The argument passed to `pipeline.link_output`, when it is called. -/
  linkTarget : Option String
  /-- The path the YAML config copy is written to. -/
  configYmlPath : String
  /-- The configuration serialized into `config.yml`. -/
  configYmlContent : Config
  deriving DecidableEq, Repr

/-- Modelled from the spec: `BatchPipelineRunner.final_path`
(`histocartography/preprocessing/pipeline.py`, not among the provided sources)
is the run output directory under `output_path`, "keyed by a hash of the
configuration". -/
def configHash (c : Config) : Nat :=
  (c.stages.foldl
    (fun h st =>
      (st.stageName.foldl (fun a ch => (a * 31 + ch.toNat) % 2 ^ 64) h)
        * 31 % 2 ^ 64)
    7)

/-- Modelled from the spec: the run's final output path,
`output_path / hash(config)`. -/
def final_path (output_path : String) (c : Config) : String :=
  output_path ++ "/" ++ toString (configHash c)

/-- Lines 38–52 of `preprocess.py`: in test mode, restrict the metadata to its
first row (`iloc[[0]]`, `IndexError` on an empty table), force `cores = 1` and
inject that row's own path as `target_path`; otherwise read the configured
`target` identifier, look its row up in the metadata (`loc`, `KeyError` when
absent) and inject that row's path.  Returns the metadata, cores and config
that reach the `BatchPipelineRunner`. -/
def injectTarget (config : Config) (metadata : List MergedRow) (cores : Nat)
    (test : Bool) : Except PError (List MergedRow × Nat × Config) :=
  if test then
    match metadata with
    | [] => .error .indexError
    | row :: _ =>
      (config.setTargetPath row.path).map fun c2 => ([row], 1, c2)
  else
    match config.snParams? with
    | none =>
      if config.stages[1]?.isNone then .error .indexError else .error .keyError
    | some sn =>
      match sn.target with
      | none => .error .keyError
      | some t =>
        match metadata.find? (fun r => r.name == t) with
        | none => .error .keyError
        | some row =>
          (config.setTargetPath row.path).map fun c2 => (metadata, cores, c2)

/-- Shallow embedding of `preprocessing` (`experiments/histo-seg/preprocess.py`,
lines 14–61).  Filesystem reads are provided through `env`; filesystem writes
and calls on the `BatchPipelineRunner` are recorded in the result. -/
def preprocessing (config : Config) (env : Env) (cores : Nat)
    (labels save test : Bool) (link_directory : Option String)
    (partAnn : Option Int) : Except PError PreprocessResult :=
  match loadMetadata env labels partAnn with
  | .error e => .error e
  | .ok (metadata, readAnn) =>
    match injectTarget config metadata cores test with
    | .error e => .error e
    | .ok (md2, cores2, config2) =>
      .ok
        { readAnnotated := readAnn
          finalMetadata := md2
          finalCores := cores2
          runnerConfig := config2
          madePreprocessDir := save && !env.preprocessPathExists
          madeOutputsDir := link_directory.isSome && !env.outputsPathExists
          linkTarget := link_directory.map
            fun d => env.PREPROCESS_PATH ++ "/outputs/" ++ d
          configYmlPath := final_path env.PREPROCESS_PATH config2 ++ "/config.yml"
          configYmlContent := config2 }

/-! ## The `__main__` entry point of `preprocess.py` -/

/-- The `params` section of the YAML file: the keyword arguments forwarded to
`preprocessing` (the dataset string is resolved to its module contents). -/
structure RunParams where
  env : Env
  cores : Nat
  labels : Bool
  save : Bool
  link_directory : Option String
  partAnn : Option Int

/-- The loaded top-level YAML document; a field is `none` when the
corresponding top-level key is absent. -/
structure TopConfig where
  pipeline : Option Config
  params : Option RunParams

/-- How a `preprocess.py` run can abort. -/
inductive MainError where
  /-- `assert Path(args.config).exists()` failed. -/
  | assertConfigPathMissing : MainError
  /-- `assert "pipeline" in config` failed. -/
  | assertPipelineMissing : MainError
  /-- `assert "params" in config` failed. -/
  | assertParamsMissing : MainError
  /-- An exception escaped from `preprocessing`. -/
  | fromPreprocessing : PError → MainError
  deriving DecidableEq

/-- Shallow embedding of the `__main__` block of `preprocess.py` (lines 64–86):
assert the config path exists, load the YAML, assert the `pipeline` and
`params` keys, then call `preprocessing`.  An `.error` outcome means the run
aborted at that point, so in particular `preprocessing` produced no result. -/
def main (configPathExists : Bool) (loaded : TopConfig) (test : Bool) :
    Except MainError PreprocessResult :=
  if !configPathExists then
    .error .assertConfigPathMissing
  else
    match loaded.pipeline with
    | none => .error .assertPipelineMissing
    | some pl =>
      match loaded.params with
      | none => .error .assertParamsMissing
      | some p =>
        (preprocessing pl p.env p.cores p.labels p.save test
            p.link_directory p.partAnn).mapError .fromPreprocessing

/-! ## `histocartography/dataloader/consep_dataset.py` -/

/-- Image contents are opaque to the properties checked here; images are
identified by an id. -/
abbrev Image := Nat

/-- One loaded annotation JSON file: `instance_centroid_location`,
`instance_types` (each entry a list whose head is taken as the label) and
`image_dimension`. -/
structure AnnotationFile where
  instance_centroid_location : List (Int × Int)
  instance_types : List (List Int)
  image_dimension : Nat × Nat
  deriving DecidableEq, Repr

/-- One entry of the `ann` list built inside `__getitem__`:
`{CENTROID: centroid, LABEL: label[0]}`. -/
structure AnnEntry where
  centroid : Int × Int
  label : Int
  deriving DecidableEq, Repr

/-- The output of `self.graph_builder(ann, image_size)`.  The graph builder
lives outside the provided sources; we keep its output abstract as the pair of
its inputs, which is all `__getitem__` observes. -/
structure BuiltGraph where
  nodes : List AnnEntry
  imageSize : Nat × Nat
  deriving DecidableEq, Repr

/-- The state of a `ConsepDataset` after `_load_dataset`: the loaded
annotation files and the loaded images, in folder order. -/
structure ConsepDataset where
  segmentation_anns : List AnnotationFile
  images : List Image
  deriving DecidableEq, Repr

/-- `ConsepDataset.__getitem__` (lines 45–67): build the `ann` list by zipping
centroids with instance types (taking `label[0]` of each, which raises
`IndexError` on an empty list, modelled as `none`), build the graph, and
return `(g, image, 0)`.  Out-of-range indices also give `none`. -/
def ConsepDataset.getItem (d : ConsepDataset) (index : Nat) :
    Option (BuiltGraph × Image × Int) :=
  match d.segmentation_anns[index]?, d.images[index]? with
  | some annFile, some image =>
    match (annFile.instance_centroid_location.zip annFile.instance_types).mapM
        (fun p => (p.2.head?).map fun l0 => AnnEntry.mk p.1 l0) with
    | none => none
    | some ann => some (⟨ann, annFile.image_dimension⟩, image, 0)
  | _, _ => none

/-- `ConsepDataset.__len__` (lines 69–71): the number of loaded images. -/
def ConsepDataset.len (d : ConsepDataset) : Nat :=
  d.images.length

/-- `collate` (lines 84–97).  `dgl.batch` is outside the provided sources; it
combines the graphs in batch order, which we model as the ordered list of
graphs.  Images stay a Python list, labels become a `LongTensor`, modelled as
the ordered list of label values. -/
def collate {G I L : Type} (batch : List (G × I × L)) :
    List G × List I × List L :=
  (batch.map fun e => e.1,
   batch.map fun e => e.2.1,
   batch.map fun e => e.2.2)

/-! ## `histocartography/ml/models/tissue_graph_model.py` -/

/-- A Python value stored in a params dict or as a module attribute, as far as
the equality checks in `_get_checkpoint_id` observe it. -/
inductive PVal where
  | int : Int → PVal
  | str : String → PVal
  | bool : Bool → PVal
  deriving DecidableEq, Repr

/-- A Python attribute map: `hasattr` is key membership, `getattr` is lookup. -/
abbrev AttrMap := List (String × PVal)

/-- The attributes of `self.superpx_gnn` (a `MultiLayerGNN`, outside the
provided sources) visible to `_get_checkpoint_id`: the module's own attributes
and those of `self.superpx_gnn.layers[0]`. -/
structure GNNModule where
  attrs : AttrMap
  layer0attrs : AttrMap
  deriving DecidableEq, Repr

/-- One entry of `MODEL_NAME_TO_CONFIG` (the zoo, outside the provided sources,
kept as data the lookup is parametric in): the recorded `gnn_params`,
`classification_params` and `node_dim` of a published checkpoint. -/
structure CandConfig where
  gnn_params : List (String × PVal)
  classification_params : List (String × PVal)
  node_dim : Nat
  deriving DecidableEq, Repr

/-- The checkpoint zoo: the keys of `MODEL_NAME_TO_URL` and the contents of
`MODEL_NAME_TO_CONFIG`. -/
structure Zoo where
  urls : List String
  configs : List (String × CandConfig)
  deriving DecidableEq, Repr

/-- The state of a `TissueGraphModel` visible to `_get_checkpoint_id`. -/
structure TGState where
  gnn_layer_type : String
  num_classes : Nat
  node_dim : Nat
  superpx_gnn : GNNModule
  pred_layer : AttrMap
  deriving DecidableEq, Repr

/-- `python`-style `str.replace` on character lists: replace leftmost
non-overlapping occurrences of ` pat` by `repl`, with fuel bounded by the
input length (each step consumes at least one character). -/
def replChars (pat repl : List Char) : Nat → List Char → List Char
  | _, [] => []
  | 0, s => s
  | fuel + 1, c :: cs =>
    if pat.isPrefixOf (c :: cs) then
      repl ++ replChars pat repl fuel ((c :: cs).drop pat.length)
    else
      c :: replChars pat repl fuel cs

/-- `str.replace(pat, repl)` for a non-empty pattern (the only use in the
source is `.replace('_layer', '')`). -/
def strReplace (s pat repl : String) : String :=
  if pat.data.isEmpty then s
  else ⟨replChars pat.data repl.data s.data.length s.data⟩

/-- The candidate checkpoint file name built by `_get_checkpoint_id`:
`'bracs_' + 'tggnn' + '_' + str(num_classes) + '_classes_' + layer_type + '.pt'`
with `layer_type = gnn_params['layer_type'].replace('_layer', '')`. -/
def candidateName (m : TGState) : String :=
  "bracs_tggnn_" ++ toString m.num_classes ++ "_classes_"
    ++ strReplace m.gnn_layer_type "_layer" "" ++ ".pt"

/-- Outcome of one parameter-comparison loop in `_get_checkpoint_id`. -/
inductive CheckResult where
  /-- Some compared value differed: the function returns `''`. -/
  | mismatch : CheckResult
  /-- All entries matched. -/
  | allMatch : CheckResult
  /-- `getattr` failed (`AttributeError`). -/
  | attrError : CheckResult
  deriving DecidableEq, Repr

/-- The loop over `cand_config['gnn_params'].items()`: compare against the
`superpx_gnn` attribute when `hasattr` holds, else against `layers[0]`. -/
def checkGnnParams (gnn : GNNModule) : List (String × PVal) → CheckResult
  | [] => .allMatch
  | (k, v) :: rest =>
    match gnn.attrs.lookup k with
    | some w => if v ≠ w then .mismatch else checkGnnParams gnn rest
    | none =>
      match gnn.layer0attrs.lookup k with
      | some w => if v ≠ w then .mismatch else checkGnnParams gnn rest
      | none => .attrError

/-- The loop over `cand_config['classification_params'].items()`: compare
against the `pred_layer` attributes. -/
def checkClsParams (pred : AttrMap) : List (String × PVal) → CheckResult
  | [] => .allMatch
  | (k, v) :: rest =>
    match pred.lookup k with
    | some w => if v ≠ w then .mismatch else checkClsParams pred rest
    | none => .attrError

/-- Python exceptions that can escape `_get_checkpoint_id`. -/
inductive AttrError where
  | attributeError : AttrError
  | keyError : AttrError
  deriving DecidableEq, Repr

/-- `TissueGraphModel._get_checkpoint_id` (lines 69–103): build the candidate
name; return `''` when it is not a zoo key; otherwise compare every recorded
GNN parameter, every classification parameter and the node dimension, and
return the candidate name only when all match. -/
def getCheckpointId (zoo : Zoo) (m : TGState) : Except AttrError String :=
  let candidate := candidateName m
  if candidate ∈ zoo.urls then
    match zoo.configs.lookup candidate with
    | none => .error .keyError
    | some cc =>
      match checkGnnParams m.superpx_gnn cc.gnn_params with
      | .attrError => .error .attributeError
      | .mismatch => .ok ""
      | .allMatch =>
        match checkClsParams m.pred_layer cc.classification_params with
        | .attrError => .error .attributeError
        | .mismatch => .ok ""
        | .allMatch =>
          if cc.node_dim ≠ m.node_dim then .ok "" else .ok candidate
  else .ok ""

/-- How the pretrained-loading part of the constructor can fail. -/
inductive InitError where
  /-- `raise NotImplementedError(...)` when no checkpoint id was found. -/
  | notImplementedError : InitError
  /-- An exception escaped from `_get_checkpoint_id`. -/
  | fromLookup : AttrError → InitError
  deriving DecidableEq, Repr

/-- The successful outcome of the constructor's step 4. -/
inductive InitResult where
  /-- `pretrained` was false: nothing downloaded or loaded. -/
  | plain : InitResult
  /-- The checkpoint with this name was downloaded and its state dict loaded. -/
  | loaded : String → InitResult
  deriving DecidableEq, Repr

/-- Step 4 of `TissueGraphModel.__init__` (lines 49–67): when `pretrained` is
set, look up the checkpoint id; an empty id (Python falsy) raises
`NotImplementedError`, a non-empty one is downloaded and loaded. -/
def TissueGraphModel.init (zoo : Zoo) (m : TGState) (pretrained : Bool) :
    Except InitError InitResult :=
  if pretrained then
    match getCheckpointId zoo m with
    | .error e => .error (.fromLookup e)
    | .ok name =>
      if name = "" then .error .notImplementedError
      else .ok (.loaded name)
  else .ok .plain

/-! ## Helper lemmas -/

theorem setTargetPath_ok {c : Config} {p : String} {c2 : Config}
    (h : c.setTargetPath p = .ok c2) :
    ∃ st sn, c.stages[1]? = some st ∧ st.stain_normalizers = some sn ∧
      c2 = ⟨c.stages.set 1
        { st with stain_normalizers := some { sn with target_path := some p } }⟩ := by
  unfold Config.setTargetPath at h
  split at h
  · exact absurd h (by simp)
  · rename_i st h1
    split at h
    · exact absurd h (by simp)
    · rename_i sn h2
      exact ⟨st, sn, h1, h2, ((Except.ok.injEq _ _).mp h).symm⟩

theorem targetPath?_setTargetPath {c : Config} {p : String} {c2 : Config}
    (h : c.setTargetPath p = .ok c2) : c2.targetPath? = some p := by
  obtain ⟨st, sn, h1, _, h3⟩ := setTargetPath_ok h
  have hlen : 1 < c.stages.length := (List.getElem?_eq_some.mp h1).1
  subst h3
  unfold Config.targetPath? Config.snParams?
  simp [List.getElem?_set_self, hlen]

theorem preprocessing_ok_elim {config : Config} {env : Env} {cores : Nat}
    {labels save test : Bool} {link : Option String} {partAnn : Option Int}
    {r : PreprocessResult}
    (h : preprocessing config env cores labels save test link partAnn = .ok r) :
    ∃ md ra md2 cores2 config2,
      loadMetadata env labels partAnn = .ok (md, ra) ∧
      injectTarget config md cores test = .ok (md2, cores2, config2) ∧
      r = { readAnnotated := ra
            finalMetadata := md2
            finalCores := cores2
            runnerConfig := config2
            madePreprocessDir := save && !env.preprocessPathExists
            madeOutputsDir := link.isSome && !env.outputsPathExists
            linkTarget := link.map fun d => env.PREPROCESS_PATH ++ "/outputs/" ++ d
            configYmlPath := final_path env.PREPROCESS_PATH config2 ++ "/config.yml"
            configYmlContent := config2 } := by
  unfold preprocessing at h
  split at h
  · exact absurd h (by simp)
  · rename_i md ra hl
    split at h
    · exact absurd h (by simp)
    · rename_i md2 cores2 config2 hb
      exact ⟨md, ra, md2, cores2, config2, hl, hb,
        ((Except.ok.injEq _ _).mp h).symm⟩

theorem injectTarget_test_elim {config : Config} {md : List MergedRow}
    {cores : Nat} {md2 : List MergedRow} {cores2 : Nat} {config2 : Config}
    (h : injectTarget config md cores true = .ok (md2, cores2, config2)) :
    ∃ row rest, md = row :: rest ∧ md2 = [row] ∧ cores2 = 1 ∧
      config.setTargetPath row.path = .ok config2 := by
  unfold injectTarget at h
  simp only [if_true] at h
  split at h
  · exact absurd h (by simp)
  · rename_i row rest
    cases hs : config.setTargetPath row.path with
    | error e => rw [hs] at h; exact absurd h (by simp [Except.map])
    | ok c2 =>
      rw [hs] at h
      simp only [Except.map, Except.ok.injEq, Prod.mk.injEq] at h
      obtain ⟨h1, h2, h3⟩ := h
      exact ⟨row, rest, rfl, h1.symm, h2.symm, by rw [hs, h3]⟩

theorem injectTarget_main_elim {config : Config} {md : List MergedRow}
    {cores : Nat} {md2 : List MergedRow} {cores2 : Nat} {config2 : Config}
    (h : injectTarget config md cores false = .ok (md2, cores2, config2)) :
    ∃ sn t row, config.snParams? = some sn ∧ sn.target = some t ∧
      md.find? (fun x => x.name == t) = some row ∧
      config.setTargetPath row.path = .ok config2 ∧
      md2 = md ∧ cores2 = cores := by
  unfold injectTarget at h
  simp only [Bool.false_eq_true, if_false] at h
  split at h
  · rename_i hp
    exact absurd h (by by_cases hn : config.stages[1]?.isNone <;> simp [hn])
  · rename_i sn hp
    split at h
    · exact absurd h (by simp)
    · rename_i t ht
      split at h
      · exact absurd h (by simp)
      · rename_i row hf
        cases hs : config.setTargetPath row.path with
        | error e => rw [hs] at h; exact absurd h (by simp [Except.map])
        | ok c2 =>
          rw [hs] at h
          simp only [Except.map, Except.ok.injEq, Prod.mk.injEq] at h
          obtain ⟨h1, h2, h3⟩ := h
          exact ⟨sn, t, row, hp, ht, hf, by rw [hs, h3], h1.symm, h2.symm⟩

/-! ## Concrete fixtures (used by witnesses and counterexamples) -/

/-- A concrete dataset module with two images, full annotations for both, and
one partial-annotation table under key 25. -/
def envEx : Env :=
  { PREPROCESS_PATH := "/pp"
    preprocessPathExists := false
    outputsPathExists := false
    IMAGES_DF := [⟨"img0", "/imgs/a.png"⟩, ⟨"img1", "/imgs/b.png"⟩]
    ANNOTATIONS_DF := [⟨"img0", "/ann/a.json"⟩, ⟨"img1", "/ann/b.json"⟩]
    PARTIAL_ANNOTATIONS_DFS := [(25, [⟨"img0", "/p25/a.json"⟩, ⟨"img1", "/p25/b.json"⟩])] }

/-- A concrete two-stage pipeline configuration whose second stage is the
stain-normalization descriptor with `target = "img1"`. -/
def cfgEx : Config :=
  ⟨[⟨"preprocessing", none⟩, ⟨"stain", some ⟨some "img1", none⟩⟩]⟩

/-- Placeholder used only as the `getD` fallback when extracting the known-`ok`
results below. -/
def fallbackResult : PreprocessResult :=
  ⟨false, [], 0, ⟨[]⟩, false, false, none, "", ⟨[]⟩⟩

/-- The result of the concrete test-mode run. -/
def rTestEx : PreprocessResult :=
  (preprocessing cfgEx envEx 4 true true true none none).toOption.getD fallbackResult

/-- The result of the concrete non-test labelled run with a link directory. -/
def rMainEx : PreprocessResult :=
  (preprocessing cfgEx envEx 4 true true false (some "v0") none).toOption.getD fallbackResult

/-! ## Claims about `preprocess.py` -/

/-- Claim C1: before any pipeline work starts, the `__main__` block validates
the configuration with assertions — the `--config` path must exist and the
loaded YAML must contain the top-level keys `pipeline` and `params`; when any
of these fails the run aborts with an `AssertionError` (an `.error` outcome,
so `preprocessing` is never invoked and no metadata is read or output
written). -/
theorem main_asserts_config (configPathExists : Bool) (loaded : TopConfig)
    (test : Bool)
    (h : configPathExists = false ∨ loaded.pipeline = none ∨ loaded.params = none) :
    ∃ e, main configPathExists loaded test = .error e ∧
      (e = MainError.assertConfigPathMissing ∨ e = MainError.assertPipelineMissing ∨
        e = MainError.assertParamsMissing) := by
  rcases h with h | h | h
  · simp [main, h]
  · cases configPathExists
    · simp [main]
    · simp [main, h]
  · cases configPathExists
    · simp [main]
    · cases hp : loaded.pipeline
      · simp [main, hp]
      · simp [main, hp, h]

/-- Witness for `main_asserts_config` at a concrete input with all three
required pieces missing. -/
theorem main_asserts_config_witness :
    ∃ e, main false ⟨none, none⟩ false = .error e ∧
      (e = MainError.assertConfigPathMissing ∨ e = MainError.assertPipelineMissing ∨
        e = MainError.assertParamsMissing) :=
  main_asserts_config false ⟨none, none⟩ false (Or.inl rfl)

/-- Claim C2: with the `--test` flag set, preprocessing restricts the working
metadata table to exactly its first row, forces `cores` to 1, and sets the
stain-normalization stage's `target_path` to that row's own path, regardless
of the configured `cores` and `target` values. -/
theorem preprocessing_test_mode (config : Config) (env : Env) (cores : Nat)
    (labels save : Bool) (link : Option String) (partAnn : Option Int)
    (r : PreprocessResult)
    (h : preprocessing config env cores labels save true link partAnn = .ok r) :
    ∃ md ra row rest,
      loadMetadata env labels partAnn = .ok (md, ra) ∧ md = row :: rest ∧
      r.finalMetadata = [row] ∧ r.finalCores = 1 ∧
      r.runnerConfig.targetPath? = some row.path := by
  obtain ⟨md, ra, md2, cores2, config2, hl, hb, hr⟩ := preprocessing_ok_elim h
  obtain ⟨row, rest, hmd, hmd2, hc2, hset⟩ := injectTarget_test_elim hb
  subst hr hmd2 hc2
  exact ⟨md, ra, row, rest, hl, hmd, rfl, rfl, targetPath?_setTargetPath hset⟩

/-- Witness for `preprocessing_test_mode` on the concrete fixture run. -/
theorem preprocessing_test_mode_witness :
    ∃ md ra row rest,
      loadMetadata envEx true none = .ok (md, ra) ∧ md = row :: rest ∧
      rTestEx.finalMetadata = [row] ∧ rTestEx.finalCores = 1 ∧
      rTestEx.runnerConfig.targetPath? = some row.path :=
  preprocessing_test_mode cfgEx envEx 4 true true none none rTestEx rfl

/-- Claim C3: in a non-test run, preprocessing reads the stage's configured
`target` identifier, looks up that identifier's row in the merged metadata
table, and writes that row's path into the stage's params as `target_path`;
`runnerConfig` is the configuration at the moment the runner is constructed. -/
theorem preprocessing_nontest_injects_target (config : Config) (env : Env)
    (cores : Nat) (labels save : Bool) (link : Option String)
    (partAnn : Option Int) (r : PreprocessResult)
    (h : preprocessing config env cores labels save false link partAnn = .ok r) :
    ∃ md ra sn t row,
      loadMetadata env labels partAnn = .ok (md, ra) ∧
      config.snParams? = some sn ∧ sn.target = some t ∧
      md.find? (fun x => x.name == t) = some row ∧
      r.runnerConfig.targetPath? = some row.path ∧
      r.finalMetadata = md ∧ r.finalCores = cores := by
  obtain ⟨md, ra, md2, cores2, config2, hl, hb, hr⟩ := preprocessing_ok_elim h
  obtain ⟨sn, t, row, hp, ht, hf, hset, hmd, hc⟩ := injectTarget_main_elim hb
  subst hr hc
  exact ⟨md, ra, sn, t, row, hl, hp, ht, hf, targetPath?_setTargetPath hset, hmd, rfl⟩

/-- Witness for `preprocessing_nontest_injects_target` on the concrete
fixture run. -/
theorem preprocessing_nontest_injects_target_witness :
    ∃ md ra sn t row,
      loadMetadata envEx true none = .ok (md, ra) ∧
      cfgEx.snParams? = some sn ∧ sn.target = some t ∧
      md.find? (fun x => x.name == t) = some row ∧
      rMainEx.runnerConfig.targetPath? = some row.path ∧
      rMainEx.finalMetadata = md ∧ rMainEx.finalCores = 4 :=
  preprocessing_nontest_injects_target cfgEx envEx 4 true true (some "v0") none
    rMainEx rfl

/-- Claim C4: after the pipeline run completes, a serialized copy of the exact
configuration used (including the injected `target_path`) is written as
`config.yml` under the run's final output path, for every run regardless of
`save`, `labels` and `link_directory`. -/
theorem preprocessing_writes_config_copy (config : Config) (env : Env)
    (cores : Nat) (labels save test : Bool) (link : Option String)
    (partAnn : Option Int) (r : PreprocessResult)
    (h : preprocessing config env cores labels save test link partAnn = .ok r) :
    r.configYmlPath = final_path env.PREPROCESS_PATH r.runnerConfig ++ "/config.yml" ∧
    r.configYmlContent = r.runnerConfig := by
  obtain ⟨md, ra, md2, cores2, config2, hl, hb, hr⟩ := preprocessing_ok_elim h
  subst hr
  exact ⟨rfl, rfl⟩

/-- Witness for `preprocessing_writes_config_copy` on the concrete fixture
run. -/
theorem preprocessing_writes_config_copy_witness :
    rMainEx.configYmlPath =
      final_path envEx.PREPROCESS_PATH rMainEx.runnerConfig ++ "/config.yml" ∧
    rMainEx.configYmlContent = rMainEx.runnerConfig :=
  preprocessing_writes_config_copy cfgEx envEx 4 true true false (some "v0") none
    rMainEx rfl

/-- Counterexample to claim C5 as stated: a run with `labels = false` succeeds
but never reads the annotation table, and the table passed to the runner is
the plain image table with no annotation data joined. -/
theorem preprocessing_unlabeled_counterexample :
    (preprocessing cfgEx envEx 4 false true false none none).map
        (fun r => (r.readAnnotated, r.finalMetadata)) =
      .ok (false, plainTable envEx.IMAGES_DF) := rfl

/-- Claim C5 (amended): for every run with `labels` set, the loader reads the
per-image annotation table and joins it with the image table; the table passed
to the runner is that merged table (its first row only in test mode). -/
theorem preprocessing_labels_merges (config : Config) (env : Env) (cores : Nat)
    (save test : Bool) (link : Option String) (partAnn : Option Int)
    (r : PreprocessResult)
    (h : preprocessing config env cores true save test link partAnn = .ok r) :
    ∃ ann, readAnnTable env partAnn = .ok ann ∧ r.readAnnotated = true ∧
      (test = false → r.finalMetadata = merge_metadata env.IMAGES_DF ann) ∧
      (test = true → r.finalMetadata = (merge_metadata env.IMAGES_DF ann).take 1) := by
  obtain ⟨md, ra, md2, cores2, config2, hl, hb, hr⟩ := preprocessing_ok_elim h
  unfold loadMetadata at hl
  simp only [if_true] at hl
  cases hA : readAnnTable env partAnn with
  | error e => rw [hA] at hl; exact absurd hl (by simp [Except.map])
  | ok ann =>
    rw [hA] at hl
    simp only [Except.map, Except.ok.injEq, Prod.mk.injEq] at hl
    obtain ⟨hmd, hra⟩ := hl
    subst hr
    refine ⟨ann, rfl, hra.symm, fun htest => ?_, fun htest => ?_⟩
    · subst htest
      obtain ⟨sn, t, row, _, _, _, _, hmd2, _⟩ := injectTarget_main_elim hb
      show md2 = merge_metadata env.IMAGES_DF ann
      rw [hmd2, hmd]
    · subst htest
      obtain ⟨row, rest, hcons, hmd2, _, _⟩ := injectTarget_test_elim hb
      show md2 = (merge_metadata env.IMAGES_DF ann).take 1
      rw [hmd2, hmd, hcons]
      rfl

/-- Witness for `preprocessing_labels_merges` on the concrete fixture run. -/
theorem preprocessing_labels_merges_witness :
    ∃ ann, readAnnTable envEx none = .ok ann ∧ rMainEx.readAnnotated = true ∧
      (false = false → rMainEx.finalMetadata = merge_metadata envEx.IMAGES_DF ann) ∧
      (false = true → rMainEx.finalMetadata = (merge_metadata envEx.IMAGES_DF ann).take 1) :=
  preprocessing_labels_merges cfgEx envEx 4 true false (some "v0") none rMainEx rfl

/-- Claim C6: the run's output is exposed under an alias path if and only if
`link_directory` is not `None`; when it is given, the outputs directory is
created under the preprocess path when absent and the pipeline's output is
linked at `outputs/<link_directory>`; when it is `None`, no alias or outputs
directory is created. -/
theorem preprocessing_link_alias (config : Config) (env : Env) (cores : Nat)
    (labels save test : Bool) (link : Option String) (partAnn : Option Int)
    (r : PreprocessResult)
    (h : preprocessing config env cores labels save test link partAnn = .ok r) :
    (r.linkTarget.isSome ↔ link.isSome) ∧
    (∀ d, link = some d →
      r.linkTarget = some (env.PREPROCESS_PATH ++ "/outputs/" ++ d) ∧
      r.madeOutputsDir = !env.outputsPathExists) ∧
    (link = none → r.linkTarget = none ∧ r.madeOutputsDir = false) := by
  obtain ⟨md, ra, md2, cores2, config2, hl, hb, hr⟩ := preprocessing_ok_elim h
  subst hr
  refine ⟨?_, ?_, ?_⟩ <;> cases link <;> simp

/-- Witness for `preprocessing_link_alias` on the concrete fixture run. -/
theorem preprocessing_link_alias_witness :
    (rMainEx.linkTarget.isSome ↔ (some "v0" : Option String).isSome) ∧
    (∀ d, (some "v0" : Option String) = some d →
      rMainEx.linkTarget = some (envEx.PREPROCESS_PATH ++ "/outputs/" ++ d) ∧
      rMainEx.madeOutputsDir = !envEx.outputsPathExists) ∧
    ((some "v0" : Option String) = none →
      rMainEx.linkTarget = none ∧ rMainEx.madeOutputsDir = false) :=
  preprocessing_link_alias cfgEx envEx 4 true true false (some "v0") none rMainEx rfl

/-- Claim C7: with `labels` set and a non-`None` partial-annotation key, the
run asserts the key is among the supported partial-annotation tables — an
unsupported key aborts with an `AssertionError` before any pipeline work; a
supported key selects that table, and a `None` key loads the full annotations
table with no such check. -/
theorem preprocessing_partAnn_assert (config : Config) (env : Env) (cores : Nat)
    (save test : Bool) (link : Option String) (k : Int) :
    (env.PARTIAL_ANNOTATIONS_DFS.lookup k = none →
      preprocessing config env cores true save test link (some k) =
        .error .assertPartAnnUnsupported) ∧
    (∀ df, env.PARTIAL_ANNOTATIONS_DFS.lookup k = some df →
      loadMetadata env true (some k) = .ok (merge_metadata env.IMAGES_DF df, true)) ∧
    loadMetadata env true none =
      .ok (merge_metadata env.IMAGES_DF env.ANNOTATIONS_DF, true) := by
  refine ⟨fun hnone => ?_, fun df hdf => ?_,
    by simp [loadMetadata, readAnnTable, Except.map]⟩
  · unfold preprocessing loadMetadata readAnnTable
    simp [hnone, Except.map]
  · simp [loadMetadata, readAnnTable, hdf, Except.map]

/-- Witness for `preprocessing_partAnn_assert` at the concrete fixture with an
unsupported key. -/
theorem preprocessing_partAnn_assert_witness :
    preprocessing cfgEx envEx 4 true true false none (some 13) =
      .error .assertPartAnnUnsupported :=
  (preprocessing_partAnn_assert cfgEx envEx 4 true false none 13).1 rfl

/-! ## Claims about `consep_dataset.py` -/

/-- Claim C8: for every valid index, `ConsepDataset.__getitem__` returns `0`
as the label component of its `(graph, image, label)` tuple, independent of
the index and of the loaded annotation contents, and `__len__` returns the
number of loaded images. -/
theorem consep_getitem_label_zero (d : ConsepDataset) (i : Nat)
    (g : BuiltGraph) (img : Image) (l : Int)
    (h : d.getItem i = some (g, img, l)) :
    l = 0 ∧ d.len = d.images.length := by
  refine ⟨?_, rfl⟩
  unfold ConsepDataset.getItem at h
  split at h
  · split at h
    · exact absurd h (by simp)
    · simp only [Option.some.injEq, Prod.mk.injEq] at h
      exact h.2.2.symm
  · exact absurd h (by simp)

/-- A concrete one-image dataset. -/
def dsEx : ConsepDataset :=
  ⟨[⟨[(3, 4)], [[2, 0]], (256, 256)⟩], [7]⟩

/-- Witness for `consep_getitem_label_zero` on the concrete dataset. -/
theorem consep_getitem_label_zero_witness :
    (0 : Int) = 0 ∧ dsEx.len = dsEx.images.length :=
  consep_getitem_label_zero dsEx 0 ⟨[⟨(3, 4), 2⟩], (256, 256)⟩ 7 0 rfl

/-- Claim C9: for every non-empty batch, `collate` returns images and labels
of length equal to the batch size, in the same order as their examples in the
input batch. -/
theorem collate_preserves (G I L : Type) (batch : List (G × I × L))
    (hne : batch ≠ []) :
    (collate batch).2.1.length = batch.length ∧
    (collate batch).2.2.length = batch.length ∧
    ∀ i, i < batch.length →
      (collate batch).2.1[i]? = batch[i]?.map (fun e => e.2.1) ∧
      (collate batch).2.2[i]? = batch[i]?.map (fun e => e.2.2) := by
  refine ⟨by simp [collate], by simp [collate], fun i hi => ⟨?_, ?_⟩⟩ <;>
    simp [collate, List.getElem?_map]

/-- A concrete two-example batch. -/
def bEx : List (Nat × Nat × Int) := [(1, 2, 3), (4, 5, 6)]

/-- Witness for `collate_preserves` on the concrete batch. -/
theorem collate_preserves_witness :
    (collate bEx).2.1.length = bEx.length ∧
    (collate bEx).2.2.length = bEx.length ∧
    ∀ i, i < bEx.length →
      (collate bEx).2.1[i]? = bEx[i]?.map (fun e => e.2.1) ∧
      (collate bEx).2.2[i]? = bEx[i]?.map (fun e => e.2.2) :=
  collate_preserves Nat Nat Int bEx (by decide)

/-! ## Claims about `tissue_graph_model.py` -/

theorem checkGnnParams_allMatch {gnn : GNNModule} {l : List (String × PVal)}
    (h : checkGnnParams gnn l = .allMatch) :
    ∀ kv ∈ l, gnn.attrs.lookup kv.1 = some kv.2 ∨
      (gnn.attrs.lookup kv.1 = none ∧ gnn.layer0attrs.lookup kv.1 = some kv.2) := by
  induction l with
  | nil => exact fun kv hkv => absurd hkv (List.not_mem_nil kv)
  | cons p rest ih =>
    obtain ⟨k, v⟩ := p
    unfold checkGnnParams at h
    have hstep : (gnn.attrs.lookup k = some v ∨
        (gnn.attrs.lookup k = none ∧ gnn.layer0attrs.lookup k = some v)) ∧
        checkGnnParams gnn rest = .allMatch := by
      split at h
      · rename_i w h1
        split at h
        · exact absurd h (by simp)
        · rename_i hvw
          simp only [ne_eq, not_not] at hvw
          exact ⟨Or.inl (by rw [h1, hvw]), h⟩
      · rename_i h1
        split at h
        · rename_i w h2
          split at h
          · exact absurd h (by simp)
          · rename_i hvw
            simp only [ne_eq, not_not] at hvw
            exact ⟨Or.inr ⟨h1, by rw [h2, hvw]⟩, h⟩
        · exact absurd h (by simp)
    intro kv hkv
    rcases List.mem_cons.mp hkv with hkv | hkv
    · subst hkv; exact hstep.1
    · exact ih hstep.2 kv hkv

theorem checkClsParams_allMatch {pred : AttrMap} {l : List (String × PVal)}
    (h : checkClsParams pred l = .allMatch) :
    ∀ kv ∈ l, pred.lookup kv.1 = some kv.2 := by
  induction l with
  | nil => exact fun kv hkv => absurd hkv (List.not_mem_nil kv)
  | cons p rest ih =>
    obtain ⟨k, v⟩ := p
    unfold checkClsParams at h
    have hstep : pred.lookup k = some v ∧ checkClsParams pred rest = .allMatch := by
      split at h
      · rename_i w h1
        split at h
        · exact absurd h (by simp)
        · rename_i hvw
          simp only [ne_eq, not_not] at hvw
          exact ⟨by rw [h1, hvw], h⟩
      · exact absurd h (by simp)
    intro kv hkv
    rcases List.mem_cons.mp hkv with hkv | hkv
    · subst hkv; exact hstep.1
    · exact ih hstep.2 kv hkv

/-- Claim C10: when the model is constructed with `pretrained` set and the
checkpoint-id lookup returns the empty string, the constructor raises
`NotImplementedError`; a checkpoint name is returned only if the candidate
built from the model type, layer type and class count is a zoo key and every
recorded GNN parameter, every classification parameter and the node dimension
match the model's state. -/
theorem tissue_graph_pretrained_lookup (zoo : Zoo) (m : TGState) :
    (getCheckpointId zoo m = .ok "" →
      TissueGraphModel.init zoo m true = .error .notImplementedError) ∧
    (∀ name, getCheckpointId zoo m = .ok name → name ≠ "" →
      name = candidateName m ∧ candidateName m ∈ zoo.urls ∧
      ∃ cc, zoo.configs.lookup (candidateName m) = some cc ∧
        (∀ kv ∈ cc.gnn_params,
          m.superpx_gnn.attrs.lookup kv.1 = some kv.2 ∨
          (m.superpx_gnn.attrs.lookup kv.1 = none ∧
            m.superpx_gnn.layer0attrs.lookup kv.1 = some kv.2)) ∧
        (∀ kv ∈ cc.classification_params, m.pred_layer.lookup kv.1 = some kv.2) ∧
        cc.node_dim = m.node_dim) := by
  constructor
  · intro h
    simp [TissueGraphModel.init, h]
  · intro name h hne
    unfold getCheckpointId at h
    simp only [] at h
    split at h
    · rename_i hmem
      split at h
      · exact absurd h (by simp)
      · rename_i cc hcc
        split at h
        · exact absurd h (by simp)
        · exact absurd ((Except.ok.injEq _ _).mp h).symm hne
        · rename_i hg
          split at h
          · exact absurd h (by simp)
          · exact absurd ((Except.ok.injEq _ _).mp h).symm hne
          · rename_i hc
            split at h
            · exact absurd ((Except.ok.injEq _ _).mp h).symm hne
            · rename_i hnd
              simp only [ne_eq, not_not] at hnd
              exact ⟨((Except.ok.injEq _ _).mp h).symm, hmem, cc, hcc,
                checkGnnParams_allMatch hg, checkClsParams_allMatch hc, hnd⟩
    · exact absurd ((Except.ok.injEq _ _).mp h).symm hne

/-- A concrete model state: GIN layers, 3 classes, node dimension 514. -/
def mEx : TGState :=
  ⟨"gin_layer", 3, 514,
    ⟨[("num_layers", .int 2)], [("hidden_dim", .int 32)]⟩,
    [("hidden_dim", .int 64)]⟩

/-- An empty checkpoint zoo. -/
def zooEmpty : Zoo := ⟨[], []⟩

/-- A zoo holding exactly the checkpoint matching `mEx`. -/
def zooOk : Zoo :=
  ⟨["bracs_tggnn_3_classes_gin.pt"],
    [("bracs_tggnn_3_classes_gin.pt",
      ⟨[("num_layers", .int 2), ("hidden_dim", .int 32)],
        [("hidden_dim", .int 64)], 514⟩)]⟩

/-- Witness for `tissue_graph_pretrained_lookup`: against the empty zoo the
lookup returns the empty string and the constructor raises; against `zooOk`
the lookup returns the candidate name, which is a zoo key. -/
theorem tissue_graph_pretrained_lookup_witness :
    TissueGraphModel.init zooEmpty mEx true = .error .notImplementedError ∧
    ("bracs_tggnn_3_classes_gin.pt" = candidateName mEx ∧
      candidateName mEx ∈ zooOk.urls ∧
      ∃ cc, zooOk.configs.lookup (candidateName mEx) = some cc ∧
        (∀ kv ∈ cc.gnn_params,
          mEx.superpx_gnn.attrs.lookup kv.1 = some kv.2 ∨
          (mEx.superpx_gnn.attrs.lookup kv.1 = none ∧
            mEx.superpx_gnn.layer0attrs.lookup kv.1 = some kv.2)) ∧
        (∀ kv ∈ cc.classification_params, mEx.pred_layer.lookup kv.1 = some kv.2) ∧
        cc.node_dim = mEx.node_dim) :=
  ⟨(tissue_graph_pretrained_lookup zooEmpty mEx).1 rfl,
    (tissue_graph_pretrained_lookup zooOk mEx).2 "bracs_tggnn_3_classes_gin.pt"
      rfl (by decide)⟩

end Histocartography
